import Mathlib

/-!
Verification development for the ilape-game-demo node-graph execution engine.

The definitions below are a shallow embedding of the TypeScript sources:
  * src/js/rete/nodes/TransformNode.ts        (TransformNode.data)
  * src/js/rete/nodes/GetAxisNode.ts          (GetHorizontalAxisNode / GetVerticalAxisNode)
  * src/js/rete/nodes/FloatNode.ts, MultiplyNode.ts, OnUpdateNode.ts
  * src/js/rete/PlayerLogicProcessor.ts       (processLogic / processNodeDirectly /
                                               followExecutionFlow / getNodeInputs)
  * the createEditor connectioncreate pipe    (connection validation hook)

JavaScript numbers are modelled as rationals; the graph values that flow along
wires are modelled by the JVal type (numbers, booleans, null).  Side effects on
the physics actor (setVelocityX / setVelocityY) are modelled as an explicit
call log, and a thrown exception inside a node's data method is modelled as
the data function returning none.
-/

/-- Runtime values that flow along graph wires: JS numbers (as rationals),
booleans (the exec marker true) and null (the OnUpdate execOut payload). -/
inductive JVal where
  | num (q : ℚ)
  | bool (b : Bool)
  | null
deriving DecidableEq, Repr

/-- Numeric coercion applied where the JS code uses a wire value in arithmetic
or a comparison (true coerces to 1, false and null to 0). -/
def JVal.toNum : JVal → ℚ
  | .num q => q
  | .bool true => 1
  | .bool false => 0
  | .null => 0

/-- The inputs record handed to a node's data method: for each input port name,
the list of values gathered from its incoming connections (absent key and
empty list both mean: nothing gathered). -/
abbrev NodeInputs := List (String × List JVal)

/-- The outputs record returned by a node's data method. -/
abbrev NodeResult := List (String × JVal)

/-- One call to a velocity setter of the physics actor. -/
inductive SetterCall where
  | setVelocityX (v : ℚ)
  | setVelocityY (v : ℚ)
deriving DecidableEq, Repr

/-- Decidable test for a horizontal-velocity setter call. -/
def SetterCall.isSetX : SetterCall → Bool
  | .setVelocityX _ => true
  | _ => false

/-- Decidable test for a vertical-velocity setter call. -/
def SetterCall.isSetY : SetterCall → Bool
  | .setVelocityY _ => true
  | _ => false

/-- The touch/virtual-button input state (player.inputState in the source). -/
structure TouchInputState where
  left : Bool
  right : Bool
  jump : Bool
deriving DecidableEq, Repr

/-- The per-tick execution context handed to node data methods
(NodeExecutionContext in src/js/rete/types.ts), restricted to the fields the
shipped node behaviours read.  hasPlayer models whether context.player is
present; isOnGround and gravity are the optional fields the processor fills
in; inputState models context.inputState; playerKeyboardDown models the
condition (context.player && context.player.keyboardState &&
context.player.keyboardState.down) read by the vertical axis node. -/
structure NodeExecutionContext where
  hasPlayer : Bool
  isOnGround : Option Bool
  gravity : Option ℚ
  inputState : Option TouchInputState
  playerKeyboardDown : Bool
deriving DecidableEq, Repr

/-- Keyboard arrow-key state (the module-level keyStates record in
GetAxisNode.ts). -/
structure KeyState where
  arrowLeft : Bool
  arrowRight : Bool
  arrowUp : Bool
  arrowDown : Bool
deriving DecidableEq, Repr

/-- clamp from GetAxisNode.ts: Math.min(Math.max(value, min), max). -/
def clampValue (value lo hi : ℚ) : ℚ := min (max value lo) hi

/-- Keyboard contribution of the horizontal axis node:
(ArrowLeft ? -1 : 0) + (ArrowRight ? 1 : 0). -/
def GetHorizontalAxisNode.keyboardValue (keys : KeyState) : ℚ :=
  (if keys.arrowLeft then (-1 : ℚ) else 0) + (if keys.arrowRight then (1 : ℚ) else 0)

/-- Touch contribution of the horizontal axis node, read from
context.inputState when available. -/
def GetHorizontalAxisNode.touchValue (ctx : NodeExecutionContext) : ℚ :=
  match ctx.inputState with
  | none => 0
  | some s => (if s.left then (-1 : ℚ) else 0) + (if s.right then (1 : ℚ) else 0)

/-- GetHorizontalAxisNode.getAxisValue from GetAxisNode.ts. -/
def GetHorizontalAxisNode.getAxisValue (keys : KeyState) (ctx : NodeExecutionContext) : ℚ :=
  clampValue (GetHorizontalAxisNode.keyboardValue keys + GetHorizontalAxisNode.touchValue ctx)
    (-1) 1

/-- Keyboard contribution of the vertical axis node:
(ArrowUp ? -1 : 0) + (ArrowDown ? 1 : 0). -/
def GetVerticalAxisNode.keyboardValue (keys : KeyState) : ℚ :=
  (if keys.arrowUp then (-1 : ℚ) else 0) + (if keys.arrowDown then (1 : ℚ) else 0)

/-- Touch contribution of the vertical axis node.  The source first sets
touchValue from the jump button (jump ? -1 : 0) and then, if
context.player.keyboardState.down holds, overwrites it with 1. -/
def GetVerticalAxisNode.touchValue (ctx : NodeExecutionContext) : ℚ :=
  match ctx.inputState with
  | none => 0
  | some s =>
    let t : ℚ := if s.jump then -1 else 0
    if ctx.hasPlayer && ctx.playerKeyboardDown then 1 else t

/-- GetVerticalAxisNode.getAxisValue from GetAxisNode.ts. -/
def GetVerticalAxisNode.getAxisValue (keys : KeyState) (ctx : NodeExecutionContext) : ℚ :=
  clampValue (GetVerticalAxisNode.keyboardValue keys + GetVerticalAxisNode.touchValue ctx)
    (-1) 1

/-- TransformNode.data from TransformNode.ts, returning the outputs record
together with the list of actor setter calls it performs, in order.  The
guard clauses, the exec-connection check, the asymmetric vertical-velocity
rule and the final (yVelocity !== 0) test follow the source line by line. -/
def TransformNode.data (inputs : NodeInputs) (ctx : NodeExecutionContext) :
    NodeResult × List SetterCall :=
  if !ctx.hasPlayer then ([("result", JVal.bool false)], [])
  else
    let execIn := (inputs.lookup "execIn").getD []
    if execIn.isEmpty then ([("result", JVal.bool false)], [])
    else
      let xs := (inputs.lookup "x").getD []
      let xVelocity : ℚ :=
        match xs with
        | [] => 0
        | v :: _ => v.toNum
      let ys := (inputs.lookup "y").getD []
      let yVelocity : ℚ :=
        match ys with
        | [] => 0
        | v :: _ =>
          let rawYValue := v.toNum
          let isOnGround := ctx.isOnGround.getD false
          if isOnGround ∧ rawYValue < 0 then rawYValue
          else if rawYValue > 0 then ctx.gravity.getD 600 + rawYValue * (1 / 2)
          else 0
      let calls :=
        [SetterCall.setVelocityX xVelocity] ++
          (if yVelocity ≠ 0 then [SetterCall.setVelocityY yVelocity] else [])
      (([("result", JVal.bool true)]), calls)

/-- FloatNode.data: returns the stored control value. -/
def FloatNode.data (value : ℚ) : NodeResult := [("value", JVal.num value)]

/-- OnUpdateNode.data: returns an execOut: null record. -/
def OnUpdateNode.data : NodeResult := [("execOut", JVal.null)]

/-- MultiplyNode.data: first values of the a and b input lists, defaulting to
0 when absent, multiplied. -/
def MultiplyNode.data (inputs : NodeInputs) : NodeResult :=
  let aValue : ℚ :=
    match (inputs.lookup "a").getD [] with
    | [] => 0
    | v :: _ => v.toNum
  let bValue : ℚ :=
    match (inputs.lookup "b").getD [] with
    | [] => 0
    | v :: _ => v.toNum
  [("value", JVal.num (aValue * bValue))]

/-- One node of the live editor graph as the processor sees it: a stable id,
the names of its input and output ports, and its data-method behaviour.
The behaviour variants mirror the shipped node classes, plus a throwing
variant modelling a node whose data method raises an exception (the failure
case the processor's try/catch blocks are written for). -/
inductive NodeBehavior where
  | onUpdate
  | floatConst (value : ℚ)
  | multiply
  | transform
  | throwing
deriving DecidableEq, Repr

/-- Running a node's data method: none models a thrown exception; some gives
the outputs record and the actor setter calls performed during the call. -/
def NodeBehavior.run (b : NodeBehavior) (inputs : NodeInputs) (ctx : NodeExecutionContext) :
    Option (NodeResult × List SetterCall) :=
  match b with
  | .onUpdate => some (OnUpdateNode.data, [])
  | .floatConst v => some (FloatNode.data v, [])
  | .multiply => some (MultiplyNode.data inputs, [])
  | .transform => some (TransformNode.data inputs ctx)
  | .throwing => none

/-- The setter calls a data invocation performs (empty when the method
throws). -/
def NodeBehavior.callsOf (b : NodeBehavior) (inputs : NodeInputs) (ctx : NodeExecutionContext) :
    List SetterCall :=
  match b.run inputs ctx with
  | some (_, cs) => cs
  | none => []

/-- A graph node (rete ClassicPreset.Node) as consumed by the processor:
node.id, Object.keys(node.inputs), Object.keys(node.outputs) in insertion
order, and its data behaviour. -/
structure GraphNode where
  id : String
  inputs : List String
  outputs : List String
  behavior : NodeBehavior
deriving DecidableEq, Repr

/-- A connection record as returned by editor.getConnections(). -/
structure GraphConn where
  source : String
  sourceOutput : String
  target : String
  targetInput : String
deriving DecidableEq, Repr

/-- The editor graph the processor reads: editor.getNodes() and
editor.getConnections(). -/
structure NodeGraph where
  nodes : List GraphNode
  connections : List GraphConn
deriving DecidableEq, Repr

/-- editor.getNode(id): first node with the given id. -/
def NodeGraph.getNode (g : NodeGraph) (nid : String) : Option GraphNode :=
  g.nodes.find? (fun n => n.id == nid)

/-- The processor's per-tick mutable state: the nodeResultCache map (most
recent insertion first, as Map.set overwrites), the log of data-method
invocations in order (node id, with some result on normal return and none on
a thrown exception), and the actor setter calls in order. -/
structure ProcState where
  nodeResultCache : List (String × NodeResult)
  events : List (String × Option NodeResult)
  calls : List SetterCall
deriving DecidableEq, Repr

/-- Which of the mutually recursive processor routines is running:
processNodeDirectly on a node, getNodeInputs on a node, the input-gathering
loop over the remaining input names of a node, the source-pulling loop over
the connections into one input, followExecutionFlow from a node output, and
its loop over the outgoing connections. -/
inductive ProcTask where
  | pnd (node : GraphNode)
  | gni (node : GraphNode)
  | gniList (nid : String) (inputNames : List String)
  | gather (conns : List GraphConn)
  | fef (node : GraphNode) (outputName : String)
  | fefList (conns : List GraphConn)
deriving Repr

/-- The value a processor routine returns (alongside the threaded state). -/
inductive ProcOut where
  | res (r : Option NodeResult)
  | inputs (i : NodeInputs)
  | vals (vs : List JVal)
  | done
deriving DecidableEq, Repr

/-- Projection of a routine result to an Option NodeResult (a caught error
yields null, hence none). -/
def ProcOut.asRes : ProcOut → Option NodeResult
  | .res r => r
  | _ => none

/-- Projection of a routine result to a NodeInputs record (a caught error in
getNodeInputs yields the empty record). -/
def ProcOut.asInputs : ProcOut → NodeInputs
  | .inputs i => i
  | _ => []

/-- Projection of a routine result to a gathered value list. -/
def ProcOut.asVals : ProcOut → List JVal
  | .vals vs => vs
  | _ => []

/-- The value each routine produces when it aborts (out of fuel models the
recursion blowing the stack, whose exception each routine catches: null for
processNodeDirectly, the empty record for getNodeInputs, nothing for the
loops). -/
def ProcTask.defaultOut : ProcTask → ProcOut
  | .pnd _ => .res none
  | .gni _ => .inputs []
  | .gniList _ _ => .inputs []
  | .gather _ => .vals []
  | .fef _ _ => .done
  | .fefList _ => .done

/-- One interpreter for the mutually recursive processor routines of
PlayerLogicProcessor.ts, by structural recursion on a fuel bound (every call
in the source strictly deepens the JS call stack, which fuel models; all the
shipped acyclic graphs terminate well within any generous fuel).

Faithfulness notes, keyed to the source:
  * pnd: the cache check comes first and returns the cached result untouched;
    on a normal data return the result is cached and, when the node is
    OnUpdate-shaped (it has an execOut output and no execIn input, the
    structural test the source uses), followExecutionFlow runs; on a thrown
    data call the catch returns null and nothing is cached.  The transform
    detection branch only re-stores context.isOnGround with the value it
    already has, so it is a no-op here.
  * gniList: inputs with no incoming connection produce no entry; inputs
    named execIn or exec receive the marker [true] without visiting the
    source; other inputs gather one value per incoming connection.
  * gather: each source node is processed via pnd; its contribution is the
    result field named value if present, else the field named after the
    connection's sourceOutput, else nothing.  (The source builds a fresh
    context here with the same player, inputState, ground flag and gravity
    as the tick context, which the modelled behaviours cannot distinguish
    from the tick context itself.)
  * fefList: each target of the followed output is processed via pnd and
    then, when it has an execOut output, followed in turn. -/
def procStep (g : NodeGraph) (ctx : NodeExecutionContext) :
    Nat → ProcTask → ProcState → ProcOut × ProcState
  | 0, t, s => (t.defaultOut, s)
  | f + 1, .pnd node, s =>
    match s.nodeResultCache.lookup node.id with
    | some r => (.res (some r), s)
    | none =>
      let p := procStep g ctx f (.gni node) s
      match node.behavior.run p.1.asInputs ctx with
      | none =>
        (.res none, ⟨p.2.nodeResultCache, p.2.events ++ [(node.id, none)], p.2.calls⟩)
      | some (r, cs) =>
        let s₂ : ProcState :=
          ⟨(node.id, r) :: p.2.nodeResultCache, p.2.events ++ [(node.id, some r)],
            p.2.calls ++ cs⟩
        let s₃ :=
          if node.outputs.contains "execOut" && ! node.inputs.contains "execIn" then
            (procStep g ctx f (.fef node "execOut") s₂).2
          else s₂
        (.res (some r), s₃)
  | f + 1, .gni node, s =>
    let p := procStep g ctx f (.gniList node.id node.inputs) s
    (.inputs p.1.asInputs, p.2)
  | _ + 1, .gniList _ [], s => (.inputs [], s)
  | f + 1, .gniList nid (nm :: rest), s =>
    let conns := g.connections.filter (fun c => c.target == nid && c.targetInput == nm)
    if conns.isEmpty then procStep g ctx f (.gniList nid rest) s
    else if nm == "execIn" || nm == "exec" then
      let p := procStep g ctx f (.gniList nid rest) s
      (.inputs ((nm, [JVal.bool true]) :: p.1.asInputs), p.2)
    else
      let p₁ := procStep g ctx f (.gather conns) s
      let p₂ := procStep g ctx f (.gniList nid rest) p₁.2
      (.inputs ((nm, p₁.1.asVals) :: p₂.1.asInputs), p₂.2)
  | _ + 1, .gather [], s => (.vals [], s)
  | f + 1, .gather (c :: rest), s =>
    match g.getNode c.source with
    | none => procStep g ctx f (.gather rest) s
    | some src =>
      let p₁ := procStep g ctx f (.pnd src) s
      let contrib : List JVal :=
        match p₁.1.asRes with
        | none => []
        | some r =>
          match r.lookup "value" with
          | some v => [v]
          | none =>
            match r.lookup c.sourceOutput with
            | some v => [v]
            | none => []
      let p₂ := procStep g ctx f (.gather rest) p₁.2
      (.vals (contrib ++ p₂.1.asVals), p₂.2)
  | f + 1, .fef node outputName, s =>
    let conns := g.connections.filter (fun c => c.source == node.id && c.sourceOutput == outputName)
    procStep g ctx f (.fefList conns) s
  | _ + 1, .fefList [], s => (.done, s)
  | f + 1, .fefList (c :: rest), s =>
    let s₁ :=
      match g.getNode c.target with
      | none => s
      | some target =>
        let s' := (procStep g ctx f (.pnd target) s).2
        if target.outputs.contains "execOut" then
          (procStep g ctx f (.fef target "execOut") s').2
        else s'
    procStep g ctx f (.fefList rest) s₁

/-- PlayerLogicProcessor.processNodeDirectly: process one node, returning its
result (none when its data method threw) and the updated per-tick state. -/
def PlayerLogicProcessor.processNodeDirectly (g : NodeGraph) (ctx : NodeExecutionContext)
    (fuel : Nat) (node : GraphNode) (s : ProcState) : Option NodeResult × ProcState :=
  let p := procStep g ctx fuel (.pnd node) s
  (p.1.asRes, p.2)

/-- PlayerLogicProcessor.getNodeInputs: gather the input record for a node by
pulling its connected non-exec sources. -/
def PlayerLogicProcessor.getNodeInputs (g : NodeGraph) (ctx : NodeExecutionContext)
    (fuel : Nat) (node : GraphNode) (s : ProcState) : NodeInputs × ProcState :=
  let p := procStep g ctx fuel (.gni node) s
  (p.1.asInputs, p.2)

/-- PlayerLogicProcessor.followExecutionFlow from a node's named output. -/
def PlayerLogicProcessor.followExecutionFlow (g : NodeGraph) (ctx : NodeExecutionContext)
    (fuel : Nat) (node : GraphNode) (outputName : String) (s : ProcState) : ProcState :=
  (procStep g ctx fuel (.fef node outputName) s).2

/-- PlayerLogicProcessor.processLogic, one tick: clear the result cache,
build the context (ground flag recomputed from the actor, gravity 600, the
player's merged input state defaulting to all-false), find the OnUpdate entry
points by class, and process each entry point in turn. -/
def PlayerLogicProcessor.processLogic (g : NodeGraph) (isPlayerOnGround : Bool)
    (fuel : Nat) : ProcState :=
  let context : NodeExecutionContext :=
    ⟨true, some isPlayerOnGround, some 600, some ⟨false, false, false⟩, false⟩
  let updateEntryPoints :=
    g.nodes.filter (fun n => match n.behavior with | .onUpdate => true | _ => false)
  updateEntryPoints.foldl
    (fun s node => (PlayerLogicProcessor.processNodeDirectly g context fuel node s).2)
    ⟨[], [], []⟩

/-- Number of data-method invocations of the node with the given id recorded
in an invocation log. -/
def countInvocations (events : List (String × Option NodeResult)) (nid : String) : Nat :=
  (events.filter (fun e => e.1 == nid)).length

/-- Number of setVelocityX calls in a call log. -/
def countSetX (calls : List SetterCall) : Nat :=
  (calls.filter SetterCall.isSetX).length

/-- Number of setVelocityY calls in a call log. -/
def countSetY (calls : List SetterCall) : Nat :=
  (calls.filter SetterCall.isSetY).length

/-- First value of an input list coerced to a number, with 0 for an empty
list: the (inputs.x && inputs.x.length > 0 ? inputs.x[0] : 0) idiom. -/
def headNum (vs : List JVal) : ℚ :=
  match vs with
  | [] => 0
  | v :: _ => v.toNum

/-- C1 counterexample: the claim says that when the first Y input value is
positive and the actor is NOT airborne, setVelocityY is not called.  But with
exec connected, the actor ground-contacted, gravity 600 and Y input 2, the
code still takes the fast-fall branch and calls setVelocityY(600 + 2 * 0.5) =
setVelocityY(601): the fast-fall branch never checks for airborne. -/
theorem C1_transform_vertical_counterexample :
    (TransformNode.data [("execIn", [JVal.bool true]), ("x", []), ("y", [JVal.num 2])]
        ⟨true, some true, some 600, none, false⟩).2
      = [SetterCall.setVelocityX 0, SetterCall.setVelocityY 601] := by
  simp [TransformNode.data, List.lookup, JVal.toNum]
  norm_num

/-- C1 amended: with exec connected and gravity 600, the vertical handling
is: if ground-contacted and the first Y value is negative, setVelocityY is
called with exactly that value; else if the first Y value is positive,
setVelocityY is called with 600 + Y * 0.5 regardless of ground contact; in
every other case setVelocityY is not called. -/
theorem C1_transform_vertical_amended (ground : Bool) (y0 : ℚ) (xs ys : List JVal) :
    (TransformNode.data [("execIn", [JVal.bool true]), ("x", xs), ("y", JVal.num y0 :: ys)]
        ⟨true, some ground, some 600, none, false⟩).2.filter SetterCall.isSetY
      = (if ground ∧ y0 < 0 then [SetterCall.setVelocityY y0]
         else if 0 < y0 then [SetterCall.setVelocityY (600 + y0 * (1 / 2))]
         else []) := by
  simp [TransformNode.data, List.lookup, JVal.toNum, SetterCall.isSetX, SetterCall.isSetY]
  split_ifs with h1 h2 <;> simp_all [SetterCall.isSetY] <;> intros <;> linarith

/-- C4 counterexample: with the jump button held AND the distinct down button
held, the touch contribution of the vertical axis node is +1, not -1: the
down-button check runs after the jump check and overwrites its result, so
down wins, not jump.  With no arrow keys held the node output is 1, not -1
as the claim requires. -/
theorem C4_vertical_touch_counterexample :
    GetVerticalAxisNode.touchValue ⟨true, none, none, some ⟨false, false, true⟩, true⟩ = 1 ∧
    GetVerticalAxisNode.getAxisValue ⟨false, false, false, false⟩
        ⟨true, none, none, some ⟨false, false, true⟩, true⟩ = 1 ∧
    GetVerticalAxisNode.getAxisValue ⟨false, false, false, false⟩
        ⟨true, none, none, some ⟨false, false, true⟩, true⟩ ≠ -1 := by
  refine ⟨rfl, ?_, ?_⟩ <;>
    norm_num [GetVerticalAxisNode.getAxisValue, GetVerticalAxisNode.keyboardValue,
      GetVerticalAxisNode.touchValue, clampValue, max_def, min_def]

/-- C4 amended: when the merged state indicates both jump and the down
button, the touch contribution is +1 (down wins, because the down check is
evaluated second and overwrites the jump result), and the node output is
clamp(keyboardAxis + 1, -1, 1). -/
theorem C4_vertical_touch_amended (keys : KeyState) (l r : Bool) :
    GetVerticalAxisNode.touchValue ⟨true, none, none, some ⟨l, r, true⟩, true⟩ = 1 ∧
    GetVerticalAxisNode.getAxisValue keys ⟨true, none, none, some ⟨l, r, true⟩, true⟩
      = clampValue (GetVerticalAxisNode.keyboardValue keys + 1) (-1) 1 := by
  constructor
  · rfl
  · simp [GetVerticalAxisNode.getAxisValue, GetVerticalAxisNode.touchValue]

/-- C6 (confirmed): whenever TransformNode runs with its exec input connected
(under a context with a player), setVelocityX is called exactly once, with
exactly the raw first X input value — 0 when the x input gathered nothing and
0 when the x input is absent entirely — including the case X = 0. -/
theorem C6_transform_horizontal_raw (ev : JVal) (es xs ys : List JVal)
    (ground : Option Bool) (grav : Option ℚ) (is : Option TouchInputState) (kd : Bool) :
    (TransformNode.data [("execIn", ev :: es), ("x", xs), ("y", ys)]
        ⟨true, ground, grav, is, kd⟩).2.filter SetterCall.isSetX
      = [SetterCall.setVelocityX (headNum xs)] ∧
    (TransformNode.data [("execIn", ev :: es), ("y", ys)]
        ⟨true, ground, grav, is, kd⟩).2.filter SetterCall.isSetX
      = [SetterCall.setVelocityX 0] := by
  constructor <;>
    · cases xs <;>
        simp [TransformNode.data, List.lookup, headNum, SetterCall.isSetX,
          SetterCall.isSetY] <;>
        split <;>
        simp [SetterCall.isSetX, SetterCall.isSetY]

/-- C7 (confirmed): a TransformNode evaluation whose exec input gathered
nothing — whether the execIn key is absent or present with an empty list —
returns the no-op result (result: false) and performs no setter call at all,
for every x and y input and every context. -/
theorem C7_transform_noop_without_exec (xs ys : List JVal) (ctx : NodeExecutionContext) :
    TransformNode.data [("x", xs), ("y", ys)] ctx = ([("result", JVal.bool false)], []) ∧
    TransformNode.data [("execIn", []), ("x", xs), ("y", ys)] ctx
      = ([("result", JVal.bool false)], []) := by
  constructor <;> · cases h : ctx.hasPlayer <;> simp [TransformNode.data, List.lookup, h]

/-- C9 (confirmed): both axis nodes compute clamp(keyboardAxis + touchAxis,
-1, 1); the output always lies in [-1, 1]; opposing keyboard and touch
directions cancel to 0 (shown horizontally: keyboard left with touch right;
vertically: keyboard down with touch jump), and agreeing directions saturate
at unit magnitude (keyboard left with touch left gives -1, keyboard up with
touch jump gives -1). -/
theorem C9_axis_clamp_range :
    (∀ keys ctx, GetHorizontalAxisNode.getAxisValue keys ctx
        = clampValue
            (GetHorizontalAxisNode.keyboardValue keys + GetHorizontalAxisNode.touchValue ctx)
            (-1) 1) ∧
    (∀ keys ctx, GetVerticalAxisNode.getAxisValue keys ctx
        = clampValue
            (GetVerticalAxisNode.keyboardValue keys + GetVerticalAxisNode.touchValue ctx)
            (-1) 1) ∧
    (∀ keys ctx, -1 ≤ GetHorizontalAxisNode.getAxisValue keys ctx ∧
        GetHorizontalAxisNode.getAxisValue keys ctx ≤ 1) ∧
    (∀ keys ctx, -1 ≤ GetVerticalAxisNode.getAxisValue keys ctx ∧
        GetVerticalAxisNode.getAxisValue keys ctx ≤ 1) ∧
    GetHorizontalAxisNode.getAxisValue ⟨true, false, false, false⟩
        ⟨true, none, none, some ⟨false, true, false⟩, false⟩ = 0 ∧
    GetHorizontalAxisNode.getAxisValue ⟨true, false, false, false⟩
        ⟨true, none, none, some ⟨true, false, false⟩, false⟩ = -1 ∧
    GetVerticalAxisNode.getAxisValue ⟨false, false, false, true⟩
        ⟨true, none, none, some ⟨false, false, true⟩, false⟩ = 0 ∧
    GetVerticalAxisNode.getAxisValue ⟨false, false, true, false⟩
        ⟨true, none, none, some ⟨false, false, true⟩, false⟩ = -1 := by
  refine ⟨fun keys ctx => rfl, fun keys ctx => rfl, ?_, ?_, ?_, ?_, ?_, ?_⟩
  · intro keys ctx
    unfold GetHorizontalAxisNode.getAxisValue clampValue
    exact ⟨le_min (le_max_right _ _) (by norm_num), min_le_right _ _⟩
  · intro keys ctx
    unfold GetVerticalAxisNode.getAxisValue clampValue
    exact ⟨le_min (le_max_right _ _) (by norm_num), min_le_right _ _⟩
  all_goals
    norm_num [GetHorizontalAxisNode.getAxisValue, GetHorizontalAxisNode.keyboardValue,
      GetHorizontalAxisNode.touchValue, GetVerticalAxisNode.getAxisValue,
      GetVerticalAxisNode.keyboardValue, GetVerticalAxisNode.touchValue,
      clampValue, max_def, min_def]

/-- An editor node as the connection-validation pipe sees it: its id and its
input and output ports as (portName, socketName) pairs. -/
structure EditorNode where
  id : String
  inputs : List (String × String)
  outputs : List (String × String)
deriving DecidableEq, Repr

/-- editor.getNode inside the validation pipe. -/
def editorGetNode (nodes : List EditorNode) (nid : String) : Option EditorNode :=
  nodes.find? (fun n => n.id == nid)

/-- The payload of a connectioncreate event. -/
structure ConnectionCreateData where
  source : String
  sourceOutput : String
  target : String
  targetInput : String
deriving DecidableEq, Repr

/-- editor.getNode(context.data.source)?.outputs[context.data.sourceOutput]
.socket.name of the attempted connection. -/
def sourceOutputSocket (nodes : List EditorNode) (d : ConnectionCreateData) : Option String :=
  (editorGetNode nodes d.source).bind (fun n => n.outputs.lookup d.sourceOutput)

/-- editor.getNode(context.data.target)?.inputs[context.data.targetInput]
.socket.name of the attempted connection. -/
def targetInputSocket (nodes : List EditorNode) (d : ConnectionCreateData) : Option String :=
  (editorGetNode nodes d.target).bind (fun n => n.inputs.lookup d.targetInput)

/-- The connectioncreate branch of the editor.addPipe validation hook in
createEditor: true means the pipe returns the context (the connection
proceeds), false means it returns undefined (the connection is blocked).
When either port is missing the connection is allowed to proceed; when the
target input socket is exec and the source output socket is not exec it is
blocked; in every other case it passes through. -/
def connectionCreateAllowed (nodes : List EditorNode) (d : ConnectionCreateData) : Bool :=
  match sourceOutputSocket nodes d, targetInputSocket nodes d with
  | some so, some ti =>
    if ti == "exec" then
      if so != "exec" then false else true
    else true
  | _, _ => true

/-- An OnUpdate-style editor node: one exec output. -/
def onUpdateEditorNode : EditorNode := ⟨"u1", [], [("execOut", "exec")]⟩

/-- A Multiply-style editor node: two number inputs, one number output. -/
def multiplyEditorNode : EditorNode :=
  ⟨"m1", [("a", "number"), ("b", "number")], [("result", "number")]⟩

/-- A Transform-style editor node: one exec input and two number inputs. -/
def transformEditorNode : EditorNode :=
  ⟨"t1", [("execIn", "exec"), ("x", "number"), ("y", "number")], []⟩

/-- A Float-style editor node: one float output. -/
def floatEditorNode : EditorNode := ⟨"f1", [], [("value", "float")]⟩

/-- C3 counterexample: the claim says the hook also rejects a connection
from an exec output to a non-exec input, but connecting the exec output of
an OnUpdate node to the number input of a Multiply node passes the hook:
the hook only inspects connections whose TARGET input socket is exec, and
never blocks an exec output feeding a non-exec input. -/
theorem C3_exec_to_data_counterexample :
    sourceOutputSocket [onUpdateEditorNode, multiplyEditorNode] ⟨"u1", "execOut", "m1", "a"⟩
        = some "exec" ∧
    targetInputSocket [onUpdateEditorNode, multiplyEditorNode] ⟨"u1", "execOut", "m1", "a"⟩
        = some "number" ∧
    connectionCreateAllowed [onUpdateEditorNode, multiplyEditorNode] ⟨"u1", "execOut", "m1", "a"⟩
        = true := by decide

/-- C3 amended: when both ports of the attempted connection resolve, the
validation hook blocks the connection exactly when the target input socket is
exec and the source output socket is not exec; the converse direction (exec
output into a non-exec input) is NOT rejected. -/
theorem C3_connection_validation_amended (nodes : List EditorNode) (d : ConnectionCreateData)
    (so ti : String) (hs : sourceOutputSocket nodes d = some so)
    (ht : targetInputSocket nodes d = some ti) :
    connectionCreateAllowed nodes d = false ↔ ti = "exec" ∧ so ≠ "exec" := by
  rw [connectionCreateAllowed, hs, ht]
  by_cases h1 : ti = "exec" <;> by_cases h2 : so = "exec" <;> simp [h1, h2]

/-- Witness for C3 amended: a Float output (socket float) into the Transform
exec input (socket exec) is blocked by the hook. -/
theorem C3_connection_validation_witness :
    connectionCreateAllowed [floatEditorNode, transformEditorNode]
      ⟨"f1", "value", "t1", "execIn"⟩ = false :=
  (C3_connection_validation_amended [floatEditorNode, transformEditorNode]
      ⟨"f1", "value", "t1", "execIn"⟩ "float" "exec" (by decide) (by decide)).mpr
    ⟨rfl, by decide⟩

/-- An OnUpdate entry-point node for the concrete tick examples. -/
def updateNode : GraphNode := ⟨"update1", [], ["execOut"], .onUpdate⟩

/-- A Float constant node with value 7. -/
def floatNode7 : GraphNode := ⟨"float1", [], ["value"], .floatConst 7⟩

/-- A Float constant node with value 5. -/
def floatNode5 : GraphNode := ⟨"float5", [], ["value"], .floatConst 5⟩

/-- A first Transform (ApplyMotion) node. -/
def transformNode1 : GraphNode := ⟨"transform1", ["execIn", "x", "y"], [], .transform⟩

/-- A second Transform (ApplyMotion) node. -/
def transformNode2 : GraphNode := ⟨"transform2", ["execIn", "x", "y"], [], .transform⟩

/-- A node whose data method throws. -/
def throwingNode : GraphNode := ⟨"thrower1", [], ["value"], .throwing⟩

/-- The spec's shared-constant scenario: one UpdateTick entry point feeding
two Transform consumers that both read the same Float constant. -/
def sharedConstGraph : NodeGraph :=
  ⟨[updateNode, floatNode7, transformNode1, transformNode2],
   [⟨"update1", "execOut", "transform1", "execIn"⟩,
    ⟨"update1", "execOut", "transform2", "execIn"⟩,
    ⟨"float1", "value", "transform1", "x"⟩,
    ⟨"float1", "value", "transform2", "x"⟩]⟩

/-- A graph in which a throwing node feeds both value inputs of one Transform
node, so it is reached twice by the per-tick dataflow pull. -/
def throwerGraph : NodeGraph :=
  ⟨[updateNode, throwingNode, transformNode1],
   [⟨"update1", "execOut", "transform1", "execIn"⟩,
    ⟨"thrower1", "value", "transform1", "x"⟩,
    ⟨"thrower1", "value", "transform1", "y"⟩]⟩

/-- The canonical single-ApplyMotion graph: one UpdateTick, one Float (5)
into x, one Transform. -/
def singleTransformGraph : NodeGraph :=
  ⟨[updateNode, floatNode5, transformNode1],
   [⟨"update1", "execOut", "transform1", "execIn"⟩,
    ⟨"float5", "value", "transform1", "x"⟩]⟩

/-- Two sibling exec branches: the first Transform pulls its x from a
throwing node, the second from a Float constant 5. -/
def siblingGraph : NodeGraph :=
  ⟨[updateNode, throwingNode, transformNode1, transformNode2, floatNode5],
   [⟨"update1", "execOut", "transform1", "execIn"⟩,
    ⟨"update1", "execOut", "transform2", "execIn"⟩,
    ⟨"thrower1", "value", "transform1", "x"⟩,
    ⟨"float5", "value", "transform2", "x"⟩]⟩

/-- C2 counterexample: the claim says every node's data method is invoked at
most once per tick regardless of how many paths reach the node.  But a node
whose data method throws is never cached (the cache is written only after a
normal return), so when it is reached by two paths in the same tick — here
as the source of both the x and the y input of one Transform node — its data
method is invoked twice. -/
theorem C2_thrower_reinvoked_counterexample :
    countInvocations (PlayerLogicProcessor.processLogic throwerGraph false 20).events
      "thrower1" = 2 := by decide

/-- C2 amended: a node result stored in the per-tick cache is reused on every
later visit — processNodeDirectly returns the cached result unchanged without
invoking the data method or touching the state — so a node whose data call
returns normally runs at most once per tick; in the spec's shared-constant
scenario the Float constant feeding two Transform consumers of the same
UpdateTick traversal is evaluated exactly once per tick.  Only a node whose
data call throws (and is therefore never cached) can be re-invoked. -/
theorem C2_cache_reuse_amended :
    (∀ (g : NodeGraph) (ctx : NodeExecutionContext) (f : Nat) (node : GraphNode)
        (s : ProcState) (r : NodeResult),
        s.nodeResultCache.lookup node.id = some r →
        PlayerLogicProcessor.processNodeDirectly g ctx (f + 1) node s = (some r, s)) ∧
    countInvocations (PlayerLogicProcessor.processLogic sharedConstGraph false 20).events
        "float1" = 1 := by
  constructor
  · intro g ctx f node s r h
    simp [PlayerLogicProcessor.processNodeDirectly, procStep, h, ProcOut.asRes]
  · decide

/-- Witness for C2 amended: a concrete cached Transform node is returned from
the cache with the state unchanged. -/
theorem C2_cache_reuse_witness :
    PlayerLogicProcessor.processNodeDirectly sharedConstGraph
        ⟨true, some false, some 600, none, false⟩ 5 transformNode1
        ⟨[("transform1", [("result", JVal.bool true)])], [], []⟩
      = (some [("result", JVal.bool true)],
         ⟨[("transform1", [("result", JVal.bool true)])], [], []⟩) :=
  C2_cache_reuse_amended.1 sharedConstGraph ⟨true, some false, some 600, none, false⟩ 4
    transformNode1 ⟨[("transform1", [("result", JVal.bool true)])], [], []⟩
    [("result", JVal.bool true)] (by decide)

/-- C5 counterexample: the claim says each velocity setter is called at most
once per tick even when multiple ApplyMotion nodes are reachable.  But in the
graph with two exec-connected Transform nodes, one tick calls setVelocityX
twice (once per Transform node). -/
theorem C5_two_transforms_counterexample :
    countSetX (PlayerLogicProcessor.processLogic sharedConstGraph false 20).calls = 2 := by
  decide

/-- C5 amended: one data invocation of any node behaviour performs at most
one setVelocityX and at most one setVelocityY call (and only Transform
performs any), so the per-tick total per axis is bounded by the number of
Transform data invocations, not globally by one; in the canonical
single-ApplyMotion graph one tick issues exactly the single call
setVelocityX(5) and no setVelocityY. -/
theorem C5_per_axis_amended :
    (∀ b inputs ctx, countSetX (NodeBehavior.callsOf b inputs ctx) ≤ 1 ∧
        countSetY (NodeBehavior.callsOf b inputs ctx) ≤ 1) ∧
    (PlayerLogicProcessor.processLogic singleTransformGraph false 20).calls
      = [SetterCall.setVelocityX 5] := by
  constructor
  · intro b inputs ctx
    cases b <;>
      simp [NodeBehavior.callsOf, NodeBehavior.run, countSetX, countSetY]
    simp only [TransformNode.data]
    split_ifs <;>
      simp [countSetX, countSetY, SetterCall.isSetX, SetterCall.isSetY]
  · decide

/-- C8 (confirmed): a node whose data method throws is caught at the
processNodeDirectly boundary: the call returns null (none), the only trace is
one failed-invocation log entry, nothing is cached and no setter call is
made; and in the sibling-branch graph a tick whose first exec branch pulls
from a throwing node still completes the second branch, whose Transform
yields its setVelocityX(5) — the thrower is invoked once, produces absence,
and is absent from the cache.  In the model processLogic is a total
function, mirroring that no exception escapes the tick entry point. -/
theorem C8_exception_containment :
    (∀ (g : NodeGraph) (ctx : NodeExecutionContext) (f : Nat) (node : GraphNode)
        (s : ProcState), node.behavior = .throwing → node.inputs = [] →
        s.nodeResultCache.lookup node.id = none →
        PlayerLogicProcessor.processNodeDirectly g ctx (f + 2) node s
          = (none, ⟨s.nodeResultCache, s.events ++ [(node.id, none)], s.calls⟩)) ∧
    (PlayerLogicProcessor.processLogic siblingGraph false 20).calls
        = [SetterCall.setVelocityX 0, SetterCall.setVelocityX 5] ∧
    countInvocations (PlayerLogicProcessor.processLogic siblingGraph false 20).events
        "thrower1" = 1 ∧
    (PlayerLogicProcessor.processLogic siblingGraph false 20).nodeResultCache.lookup
        "thrower1" = none := by
  refine ⟨?_, by decide, by decide, by decide⟩
  intro g ctx f node s hb hi hc
  cases f <;>
    simp [PlayerLogicProcessor.processNodeDirectly, procStep, hc, hi, hb, NodeBehavior.run,
      ProcOut.asInputs, ProcOut.asRes, ProcTask.defaultOut]

/-- Witness for C8: processing the concrete throwing node from an empty state
returns none and records exactly one failed invocation. -/
theorem C8_exception_containment_witness :
    PlayerLogicProcessor.processNodeDirectly throwerGraph
        ⟨true, some false, some 600, none, false⟩ 3 throwingNode ⟨[], [], []⟩
      = (none, ⟨[], [("thrower1", none)], []⟩) :=
  C8_exception_containment.1 throwerGraph ⟨true, some false, some 600, none, false⟩ 1
    throwingNode ⟨[], [], []⟩ rfl rfl rfl

/-- C10 (confirmed): input gathering treats an input as an exec input purely
by its name (execIn or exec), never by socket type (the processor model does
not even consult sockets, as the source does not): for a node whose single
input bears such a name and has at least one incoming connection, the
gathered record maps it to the marker list [true] and the per-tick state is
returned unchanged — no source node is evaluated; and for every node,
every input named execIn or exec with at least one incoming connection is
mapped to [true] in the gathered record, whatever its position among the
node's inputs. -/
theorem C10_exec_inputs_by_name :
    (∀ (g : NodeGraph) (ctx : NodeExecutionContext) (f : Nat) (node : GraphNode)
        (s : ProcState) (nm : String), node.inputs = [nm] →
        (nm = "execIn" ∨ nm = "exec") →
        g.connections.filter (fun c => c.target == node.id && c.targetInput == nm) ≠ [] →
        PlayerLogicProcessor.getNodeInputs g ctx (f + 2) node s
          = ([(nm, [JVal.bool true])], s)) ∧
    (∀ (g : NodeGraph) (ctx : NodeExecutionContext) (nid : String)
        (inputNames : List String) (nm : String), (nm = "execIn" ∨ nm = "exec") →
        g.connections.filter (fun c => c.target == nid && c.targetInput == nm) ≠ [] →
        ∀ (f : Nat) (s : ProcState), inputNames.length < f → nm ∈ inputNames →
          ((procStep g ctx f (.gniList nid inputNames) s).1.asInputs).lookup nm
            = some [JVal.bool true]) := by
  constructor
  · intro g ctx f node s nm hi hn hc
    rcases hn with rfl | rfl <;> cases f <;>
      simp [PlayerLogicProcessor.getNodeInputs, procStep, hi, ProcOut.asInputs,
        ProcTask.defaultOut, List.isEmpty_iff, hc]
  · intro g ctx nid inputNames nm hn hc
    induction inputNames with
    | nil =>
      intro f s hf hmem
      simp at hmem
    | cons i rest ih =>
      intro f s hf hmem
      obtain ⟨f, rfl⟩ : ∃ fp, f = fp + 1 := ⟨f - 1, by omega⟩
      by_cases hi : i = nm
      · subst hi
        have hne : (g.connections.filter
            (fun c => c.target == nid && c.targetInput == i)).isEmpty = false := by
          simp [List.isEmpty_iff, hc]
        rcases hn with h | h <;> subst h <;>
          · simp only [procStep]
            rw [hne]
            simp [ProcOut.asInputs, List.lookup]
      · have hmem' : nm ∈ rest := by
          rcases List.mem_cons.mp hmem with h | h
          · exact absurd h.symm hi
          · exact h
        have hnmi : (nm == i) = false := beq_eq_false_iff_ne.mpr (Ne.symm hi)
        simp only [procStep]
        cases he : (g.connections.filter
            (fun c => c.target == nid && c.targetInput == i)).isEmpty
        · cases hex : (i == "execIn" || i == "exec")
          · simp only [he, hex, Bool.false_eq_true, if_false, ProcOut.asInputs]
            simp [List.lookup, hnmi]
            exact ih f _ (by simp at hf; omega) hmem'
          · simp only [he, hex, Bool.false_eq_true, if_false, if_true, ProcOut.asInputs]
            simp [List.lookup, hnmi]
            exact ih f _ (by simp at hf; omega) hmem'
        · simp only [he, if_true]
          exact ih f _ (by simp at hf; omega) hmem'

/-- Witness for C10: gathering the inputs of a single-exec-input node wired
from the UpdateTick entry point yields the marker record and leaves the empty
state untouched. -/
theorem C10_exec_inputs_by_name_witness :
    PlayerLogicProcessor.getNodeInputs throwerGraph ⟨true, some false, some 600, none, false⟩ 5
        ⟨"transform1", ["execIn"], [], .transform⟩ ⟨[], [], []⟩
      = ([("execIn", [JVal.bool true])], ⟨[], [], []⟩) :=
  C10_exec_inputs_by_name.1 throwerGraph ⟨true, some false, some 600, none, false⟩ 3
    ⟨"transform1", ["execIn"], [], .transform⟩ ⟨[], [], []⟩ "execIn" rfl (Or.inl rfl)
    (by decide)
